import Mathlib

set_option maxRecDepth 100000

/-!
Verification of the servo-control program `moter.cpp`.

The program drives an SG90 servo over hardware PWM: a 5-point piecewise-linear
calibration table, an angle command processor (`setServoAngle`), a record sink
(`store_to_db`, SQLite), and a `while (true)` control loop in `main` that reads
integers from standard input.

All integer arithmetic is embedded with `Int` and `Int.tdiv` (C++ `/` on `int`
truncates toward zero).  Side effects (PWM register writes, console prints,
record-sink inserts, delays) are modelled as an explicit effect trace.
-/

/-- `const int minPwm = 50` (1 ms pulse). -/
def minPwm : Int := 50

/-- `const int maxPwm = 250` (2 ms pulse). -/
def maxPwm : Int := 250

/-- `const int maxAngle = 168` (maximum calibrated value). -/
def maxAngle : Int := 168

/-- `const int calibrationPoints[5][2]`: the five (angle, raw) samples. -/
def calibrationPoints : List (Int × Int) :=
  [(0, 0), (45, 30), (90, 80), (135, 120), (180, 168)]

/-- The body of the `for (int i = 0; i < 4; ++i)` loop in `interpolate`:
`i` is the current loop index, `rest` the number of remaining iterations
(the loop runs 4 times, so it starts with `rest = 4`).  On a hit the segment
formula `y1 + (angle - x1) * (y2 - y1) / (x2 - x1)` is returned (truncating
division); when the loop exhausts, `angle` is returned unchanged. -/
def interpolateLoop (angle : Int) (i : Nat) : Nat → Int
  | 0 => angle
  | rest + 1 =>
    let x1 := (calibrationPoints.getD i (0, 0)).1
    let x2 := (calibrationPoints.getD (i + 1) (0, 0)).1
    let y1 := (calibrationPoints.getD i (0, 0)).2
    let y2 := (calibrationPoints.getD (i + 1) (0, 0)).2
    if x1 ≤ angle ∧ angle ≤ x2 then
      y1 + Int.tdiv ((angle - x1) * (y2 - y1)) (x2 - x1)
    else
      interpolateLoop angle (i + 1) rest

/-- `int interpolate(int angle)`: first-match segment search over the four
calibration segments, defensive identity fallback. -/
def interpolate (angle : Int) : Int :=
  interpolateLoop angle 0 4

/-- The segment-`i` interpolation formula on its own (the value the loop
returns when segment `i` is the one selected). -/
def segValue (i : Nat) (angle : Int) : Int :=
  let x1 := (calibrationPoints.getD i (0, 0)).1
  let x2 := (calibrationPoints.getD (i + 1) (0, 0)).1
  let y1 := (calibrationPoints.getD i (0, 0)).2
  let y2 := (calibrationPoints.getD (i + 1) (0, 0)).2
  y1 + Int.tdiv ((angle - x1) * (y2 - y1)) (x2 - x1)

/-- Observable side effects of the program, in order of occurrence. -/
inductive Effect where
  | pwmWrite (duty : Int)
  | print (s : String)
  | recordAppend (angle : Int)
  | delayMs (ms : Nat)
deriving DecidableEq

/-- Recognizer for record-sink effects. -/
def isRecordAppend : Effect → Bool
  | .recordAppend _ => true
  | _ => false

/-- Recognizer for PWM actuator writes. -/
def isPwmWrite : Effect → Bool
  | .pwmWrite _ => true
  | _ => false

/-- The rejection message printed for an out-of-domain angle. -/
def invalidMsg : String :=
  "Invalid angle! Please enter a value between 0 and 180."

/-- The confirmation line printed after a successful actuation. -/
def confirmMsg (angle calibratedAngle pwmValue : Int) : String :=
  "Servo angle set to " ++ toString angle ++ " degrees (Calibrated: " ++
    toString calibratedAngle ++ ", PWM: " ++ toString pwmValue ++ ")"

/-- `void setServoAngle(int angle)`: validate, calibrate, scale to PWM,
write the duty to the driver and print the confirmation.  The effect list
records exactly the externally visible actions, in program order. -/
def setServoAngle (angle : Int) : List Effect :=
  if angle < 0 ∨ 180 < angle then
    [Effect.print invalidMsg]
  else
    let calibratedAngle := interpolate angle
    let pwmValue := minPwm + Int.tdiv (calibratedAngle * (maxPwm - minPwm)) 180
    [Effect.pwmWrite pwmValue,
     Effect.print (confirmMsg angle calibratedAngle pwmValue)]

/-- The duty value `setServoAngle` hands to `pwmWrite` for an in-domain
angle: `minPwm + calibrated * (maxPwm - minPwm) / 180`, truncating. -/
def dutyOf (angle : Int) : Int :=
  minPwm + Int.tdiv (interpolate angle * (maxPwm - minPwm)) 180

/-- A row of the `motor` table (the auto-increment id is the list position). -/
structure DbRow where
  angle : Int
  time : String
deriving DecidableEq

/-- `void store_to_db(int angle)` success path: append one `(Angle, Time)`
row to the `motor` table.  Error paths print to standard error and leave the
table unchanged; no caller in `main` ever invokes this function. -/
def store_to_db (db : List DbRow) (angle : Int) (time : String) : List DbRow :=
  db ++ [⟨angle, time⟩]

/-- One iteration of the body of the `while (true)` loop in `main` after the
angle has been read: `setServoAngle(angle); delay(500);`. -/
def loopIter (angle : Int) : List Effect :=
  setServoAngle angle ++ [Effect.delayMs 500]

/-- The prompt printed at the top of each loop iteration. -/
def promptMsg : String := "Enter the servo angle (0-180): "

/-- State of the control loop: the integers still available on standard
input.  An empty list means the stream is at end-of-input. -/
structure LoopState where
  input : List Int
deriving DecidableEq

/-- Result of one pass of the loop body: continue with a new state and a
trace of effects, or exit the process with a status code. -/
inductive StepResult where
  | next (s : LoopState) (effects : List Effect)
  | exit (code : Int)
deriving DecidableEq

/-- One pass of the `while (true)` loop.  The loop condition is the literal
`true` and the body contains no `break` or `return`, so no pass exits.  When
the stream is at end-of-input, `cin >> angle` fails and (C++11 semantics)
value-initializes `angle` to `0`; the stream stays failed, so every later
pass also processes angle `0`. -/
def mainStep (s : LoopState) : StepResult :=
  match s.input with
  | a :: rest => .next ⟨rest⟩ (Effect.print promptMsg :: loopIter a)
  | [] => .next ⟨[]⟩ (Effect.print promptMsg :: loopIter 0)

/-- Run the control loop for at most `n` passes; `some c` when the loop
exited with status `c` within that bound, `none` otherwise. -/
def runMain (s : LoopState) : Nat → Option Int
  | 0 => none
  | n + 1 =>
    match mainStep s with
    | .next s2 _ => runMain s2 n
    | .exit c => some c

/-- The control loop eventually exits once standard input is exhausted. -/
def terminatesOnEof : Prop :=
  ∃ n c, runMain ⟨[]⟩ n = some c

/-- Unfolding the first loop pass (`i = 0`, segment [0, 45]). -/
theorem interpolateLoop_unfold0 (angle : Int) :
    interpolateLoop angle 0 4 =
      if (0 : Int) ≤ angle ∧ angle ≤ 45 then
        0 + Int.tdiv ((angle - 0) * (30 - 0)) (45 - 0)
      else interpolateLoop angle 1 3 := rfl

/-- Unfolding the second loop pass (`i = 1`, segment [45, 90]). -/
theorem interpolateLoop_unfold1 (angle : Int) :
    interpolateLoop angle 1 3 =
      if (45 : Int) ≤ angle ∧ angle ≤ 90 then
        30 + Int.tdiv ((angle - 45) * (80 - 30)) (90 - 45)
      else interpolateLoop angle 2 2 := rfl

/-- Unfolding the third loop pass (`i = 2`, segment [90, 135]). -/
theorem interpolateLoop_unfold2 (angle : Int) :
    interpolateLoop angle 2 2 =
      if (90 : Int) ≤ angle ∧ angle ≤ 135 then
        80 + Int.tdiv ((angle - 90) * (120 - 80)) (135 - 90)
      else interpolateLoop angle 3 1 := rfl

/-- Unfolding the fourth loop pass (`i = 3`, segment [135, 180]). -/
theorem interpolateLoop_unfold3 (angle : Int) :
    interpolateLoop angle 3 1 =
      if (135 : Int) ≤ angle ∧ angle ≤ 180 then
        120 + Int.tdiv ((angle - 135) * (168 - 120)) (180 - 135)
      else interpolateLoop angle 4 0 := rfl

/-- After the fourth pass the loop exhausts and `angle` is returned. -/
theorem interpolateLoop_unfold4 (angle : Int) :
    interpolateLoop angle 4 0 = angle := rfl

/-- `interpolate` unfolded to its full decision tree. -/
theorem interpolate_cases (angle : Int) :
    interpolate angle =
      if (0 : Int) ≤ angle ∧ angle ≤ 45 then
        0 + Int.tdiv ((angle - 0) * (30 - 0)) (45 - 0)
      else if (45 : Int) ≤ angle ∧ angle ≤ 90 then
        30 + Int.tdiv ((angle - 45) * (80 - 30)) (90 - 45)
      else if (90 : Int) ≤ angle ∧ angle ≤ 135 then
        80 + Int.tdiv ((angle - 90) * (120 - 80)) (135 - 90)
      else if (135 : Int) ≤ angle ∧ angle ≤ 180 then
        120 + Int.tdiv ((angle - 135) * (168 - 120)) (180 - 135)
      else angle := by
  rw [interpolate, interpolateLoop_unfold0, interpolateLoop_unfold1,
    interpolateLoop_unfold2, interpolateLoop_unfold3, interpolateLoop_unfold4]

/-- Single-step monotonicity of `interpolate` on the integer grid of the
domain, checked by evaluation. -/
theorem interpolate_step_mono :
    ∀ n : Nat, n < 180 → interpolate (n : Int) ≤ interpolate ((n : Int) + 1) := by
  decide

/-- Chained monotonicity over a nonnegative offset. -/
theorem interpolate_chain_mono :
    ∀ k n : Nat, n + k ≤ 180 →
      interpolate (n : Int) ≤ interpolate ((n + k : Nat) : Int) := by
  intro k
  induction k with
  | zero => intro n h; simp
  | succ k ih =>
    intro n h
    have h1 := ih n (by omega)
    have h2 := interpolate_step_mono (n + k) (by omega)
    have h3 : ((n + (k + 1) : Nat) : Int) = ((n + k : Nat) : Int) + 1 := by
      push_cast
      ring
    rw [h3]
    exact le_trans h1 (by exact_mod_cast h2)

/-- C1: for every angle in [0,180], `setServoAngle` computes
`calibrated = interpolate(angle)` and
`duty = minPwm + calibrated * (maxPwm - minPwm) / 180` with truncating
division, and its effect trace is exactly the PWM write of that duty followed
by the confirmation print; moreover angle 0 yields duty 50, angle 45 duty 83,
angle 60 calibrated 46 and duty 101, angle 90 duty 138, angle 180 duty 236. -/
theorem setServoAngle_duty_formula :
    (∀ angle : Int, 0 ≤ angle → angle ≤ 180 →
        setServoAngle angle =
          [Effect.pwmWrite (dutyOf angle),
           Effect.print (confirmMsg angle (interpolate angle) (dutyOf angle))]) ∧
      dutyOf 0 = 50 ∧ dutyOf 45 = 83 ∧ interpolate 60 = 46 ∧ dutyOf 60 = 101 ∧
      dutyOf 90 = 138 ∧ dutyOf 180 = 236 := by
  refine ⟨?_, by decide, by decide, by decide, by decide, by decide, by decide⟩
  intro angle h0 h180
  rw [setServoAngle, if_neg (by omega)]
  rfl

/-- Witness for C1 at angle 90: calibrated 80, duty 138. -/
theorem setServoAngle_duty_formula_witness :
    setServoAngle 90 =
      [Effect.pwmWrite (dutyOf 90),
       Effect.print (confirmMsg 90 (interpolate 90) (dutyOf 90))] :=
  setServoAngle_duty_formula.1 90 (by decide) (by decide)

/-- C3: `interpolate` reproduces every calibration sample exactly, and at
each interior boundary the earlier segment is the one selected, its formula
returning the boundary point's raw value with no rounding drift. -/
theorem interpolate_sample_points :
    interpolate 0 = 0 ∧ interpolate 45 = 30 ∧ interpolate 90 = 80 ∧
      interpolate 135 = 120 ∧ interpolate 180 = 168 ∧
      interpolate 45 = segValue 0 45 ∧ interpolate 90 = segValue 1 90 ∧
      interpolate 135 = segValue 2 135 ∧ interpolate 180 = segValue 3 180 ∧
      segValue 0 45 = 30 ∧ segValue 1 90 = 80 ∧ segValue 2 135 = 120 ∧
      segValue 3 180 = 168 := by
  decide

/-- C4: `interpolate` is monotonically non-decreasing on [0,180]. -/
theorem interpolate_mono :
    ∀ a b : Int, 0 ≤ a → a ≤ b → b ≤ 180 → interpolate a ≤ interpolate b := by
  intro a b ha hab hb
  have h1 : ((a.toNat : Nat) : Int) = a := Int.toNat_of_nonneg ha
  have h2 : ((b.toNat : Nat) : Int) = b := Int.toNat_of_nonneg (ha.trans hab)
  have h3 : b.toNat = a.toNat + (b.toNat - a.toNat) := by omega
  have h4 := interpolate_chain_mono (b.toNat - a.toNat) a.toNat (by omega)
  rw [h1, ← h3, h2] at h4
  exact h4

/-- Witness for C4 at the pair (30, 150). -/
theorem interpolate_mono_witness : interpolate 30 ≤ interpolate 150 :=
  interpolate_mono 30 150 (by decide) (by decide) (by decide)

/-- Duty bounds on the integer grid of the domain, checked by evaluation. -/
theorem dutyOf_bounds_nat :
    ∀ n : Nat, n < 181 → 50 ≤ dutyOf (n : Int) ∧ dutyOf (n : Int) ≤ 236 := by
  decide

/-- C7: for every angle in [0,180], the duty `setServoAngle` passes to the
PWM driver lies in [50, 236]. -/
theorem dutyOf_in_range :
    ∀ angle : Int, 0 ≤ angle → angle ≤ 180 →
      Effect.pwmWrite (dutyOf angle) ∈ setServoAngle angle ∧
        50 ≤ dutyOf angle ∧ dutyOf angle ≤ 236 := by
  intro angle h0 h180
  have h1 : ((angle.toNat : Nat) : Int) = angle := Int.toNat_of_nonneg h0
  have h2 := dutyOf_bounds_nat angle.toNat (by omega)
  rw [h1] at h2
  refine ⟨?_, h2⟩
  rw [setServoAngle, if_neg (by omega)]
  exact List.mem_cons_self _ _

/-- Witness for C7 at angle 180: duty 236 lies in [50, 236]. -/
theorem dutyOf_in_range_witness :
    Effect.pwmWrite (dutyOf 180) ∈ setServoAngle 180 ∧
      50 ≤ dutyOf 180 ∧ dutyOf 180 ≤ 236 :=
  dutyOf_in_range 180 (by decide) (by decide)

/-- C9: for every integer angle outside [0,180], `interpolate` returns the
angle unchanged (the defensive identity at the end of the loop). -/
theorem interpolate_out_of_range :
    ∀ angle : Int, (angle < 0 ∨ 180 < angle) → interpolate angle = angle := by
  intro angle h
  rw [interpolate_cases]
  split_ifs with h1 h2 h3 h4
  · exfalso; omega
  · exfalso; omega
  · exfalso; omega
  · exfalso; omega
  · rfl

/-- Witness for C9 at angle 200. -/
theorem interpolate_out_of_range_witness : interpolate 200 = 200 :=
  interpolate_out_of_range 200 (Or.inr (by decide))

/-- Helper: the effect trace of `setServoAngle` on an in-domain angle. -/
theorem setServoAngle_valid (angle : Int) (h0 : 0 ≤ angle) (h180 : angle ≤ 180) :
    setServoAngle angle =
      [Effect.pwmWrite (dutyOf angle),
       Effect.print (confirmMsg angle (interpolate angle) (dutyOf angle))] := by
  rw [setServoAngle, if_neg (by omega)]
  rfl

/-- C2 counterexample: issuing the valid angle 90 to the loop body produces
zero record-sink invocations, not one — `main` never calls `store_to_db`. -/
theorem loop_record_count_not_one :
    ((loopIter 90).filter isRecordAppend).length ≠ 1 := by
  decide

/-- C2 (amended): for every valid angle in [0,180] issued to the control
loop, the record sink is invoked zero times — the loop body appends no
record — while the actuator write still occurs, as the unique PWM effect. -/
theorem loop_no_record_append :
    ∀ angle : Int, 0 ≤ angle → angle ≤ 180 →
      (loopIter angle).filter isRecordAppend = [] ∧
        (loopIter angle).filter isPwmWrite = [Effect.pwmWrite (dutyOf angle)] := by
  intro angle h0 h180
  have hset := setServoAngle_valid angle h0 h180
  constructor
  · simp [loopIter, hset, isRecordAppend, isPwmWrite, List.filter]
  · simp [loopIter, hset, isRecordAppend, isPwmWrite, List.filter]

/-- Witness for C2 (amended) at angle 90. -/
theorem loop_no_record_append_witness :
    (loopIter 90).filter isRecordAppend = [] ∧
      (loopIter 90).filter isPwmWrite = [Effect.pwmWrite (dutyOf 90)] :=
  loop_no_record_append 90 (by decide) (by decide)

/-- C5: for every angle outside [0,180], `setServoAngle` prints the
rejection message only: the loop body performs no PWM write and no record
append, and the loop continues with the rest of the input. -/
theorem invalid_angle_no_side_effect :
    ∀ angle : Int, (angle < 0 ∨ 180 < angle) →
      setServoAngle angle = [Effect.print invalidMsg] ∧
        (loopIter angle).filter isPwmWrite = [] ∧
        (loopIter angle).filter isRecordAppend = [] ∧
        ∀ rest : List Int,
          mainStep ⟨angle :: rest⟩ =
            .next ⟨rest⟩ (Effect.print promptMsg :: loopIter angle) := by
  intro angle h
  have hset : setServoAngle angle = [Effect.print invalidMsg] := by
    rw [setServoAngle, if_pos h]
  refine ⟨hset, ?_, ?_, fun rest => rfl⟩
  · simp [loopIter, hset, isPwmWrite, List.filter]
  · simp [loopIter, hset, isRecordAppend, List.filter]

/-- Witness for C5 at angle 200. -/
theorem invalid_angle_no_side_effect_witness :
    setServoAngle 200 = [Effect.print invalidMsg] ∧
      (loopIter 200).filter isPwmWrite = [] ∧
      (loopIter 200).filter isRecordAppend = [] ∧
      ∀ rest : List Int,
        mainStep ⟨200 :: rest⟩ =
          .next ⟨rest⟩ (Effect.print promptMsg :: loopIter 200) :=
  invalid_angle_no_side_effect 200 (Or.inr (by decide))

/-- Helper: after end-of-input the loop never exits within any bound. -/
theorem runMain_eof_none : ∀ n : Nat, runMain ⟨[]⟩ n = none := by
  intro n
  induction n with
  | zero => rfl
  | succ n ih => exact ih

/-- C6 counterexample: the control loop does not terminate on end-of-input;
`while (true)` has no exit path, so the process never reaches `return 0`. -/
theorem control_loop_eof_nonterminating : ¬ terminatesOnEof := by
  rintro ⟨n, c, h⟩
  rw [runMain_eof_none] at h
  exact Option.noConfusion h

/-- C6 (amended): when standard input reaches end-of-input the control loop
does not terminate: no number of passes makes it exit, and each pass after
end-of-input processes angle 0 (the failed extraction value-initializes the
variable) and continues. -/
theorem eof_loop_runs_forever :
    ∀ n : Nat, runMain ⟨[]⟩ n = none ∧
      mainStep ⟨[]⟩ = .next ⟨[]⟩ (Effect.print promptMsg :: loopIter 0) :=
  fun n => ⟨runMain_eof_none n, rfl⟩

/-- The ideal (exact rational) linear interpolation on segment `i`. -/
def idealQ (i : Nat) (angle : Int) : ℚ :=
  let x1 := ((calibrationPoints.getD i (0, 0)).1 : ℚ)
  let x2 := ((calibrationPoints.getD (i + 1) (0, 0)).1 : ℚ)
  let y1 := ((calibrationPoints.getD i (0, 0)).2 : ℚ)
  let y2 := ((calibrationPoints.getD (i + 1) (0, 0)).2 : ℚ)
  y1 + ((angle : ℚ) - x1) * (y2 - y1) / (x2 - x1)

/-- Truncation-error bound as integer inequalities, segment 0, checked by
evaluation over the 46 grid points (the error times the width 45). -/
theorem interpolate_err_grid0 :
    ∀ t : Nat, t < 46 →
      -45 ≤ interpolate ((0 : Int) + (t : Int)) * 45 - (0 * 45 + (t : Int) * (30 - 0)) ∧
        interpolate ((0 : Int) + (t : Int)) * 45 - (0 * 45 + (t : Int) * (30 - 0)) ≤ 45 := by
  decide

/-- Truncation-error bound as integer inequalities, segment 1. -/
theorem interpolate_err_grid1 :
    ∀ t : Nat, t < 46 →
      -45 ≤ interpolate ((45 : Int) + (t : Int)) * 45 - (30 * 45 + (t : Int) * (80 - 30)) ∧
        interpolate ((45 : Int) + (t : Int)) * 45 - (30 * 45 + (t : Int) * (80 - 30)) ≤ 45 := by
  decide

/-- Truncation-error bound as integer inequalities, segment 2. -/
theorem interpolate_err_grid2 :
    ∀ t : Nat, t < 46 →
      -45 ≤ interpolate ((90 : Int) + (t : Int)) * 45 - (80 * 45 + (t : Int) * (120 - 80)) ∧
        interpolate ((90 : Int) + (t : Int)) * 45 - (80 * 45 + (t : Int) * (120 - 80)) ≤ 45 := by
  decide

/-- Truncation-error bound as integer inequalities, segment 3. -/
theorem interpolate_err_grid3 :
    ∀ t : Nat, t < 46 →
      -45 ≤ interpolate ((135 : Int) + (t : Int)) * 45 - (120 * 45 + (t : Int) * (168 - 120)) ∧
        interpolate ((135 : Int) + (t : Int)) * 45 - (120 * 45 + (t : Int) * (168 - 120)) ≤ 45 := by
  decide

/-- Bridge from the scaled integer error bound to the rational bound: a
value `v` whose 45-fold differs from the exact numerator by at most 45 is
within 1 of the exact rational interpolation (segment width 45). -/
theorem seg_err_bound (x1 x2 y1 y2 v angle : Int) (hw : x2 - x1 = 45)
    (hlo : -45 ≤ v * 45 - (y1 * 45 + (angle - x1) * (y2 - y1)))
    (hhi : v * 45 - (y1 * 45 + (angle - x1) * (y2 - y1)) ≤ 45) :
    -1 ≤ (v : ℚ) - ((y1 : ℚ) + ((angle : ℚ) - (x1 : ℚ)) * ((y2 : ℚ) - (y1 : ℚ)) / ((x2 : ℚ) - (x1 : ℚ))) ∧
      (v : ℚ) - ((y1 : ℚ) + ((angle : ℚ) - (x1 : ℚ)) * ((y2 : ℚ) - (y1 : ℚ)) / ((x2 : ℚ) - (x1 : ℚ))) ≤ 1 := by
  have hwq : (x2 : ℚ) - (x1 : ℚ) = 45 := by exact_mod_cast hw
  have hloq : (-45 : ℚ) ≤ (v : ℚ) * 45 - ((y1 : ℚ) * 45 + ((angle : ℚ) - (x1 : ℚ)) * ((y2 : ℚ) - (y1 : ℚ))) := by
    exact_mod_cast hlo
  have hhiq : (v : ℚ) * 45 - ((y1 : ℚ) * 45 + ((angle : ℚ) - (x1 : ℚ)) * ((y2 : ℚ) - (y1 : ℚ))) ≤ 45 := by
    exact_mod_cast hhi
  rw [hwq]
  have key : (v : ℚ) - ((y1 : ℚ) + ((angle : ℚ) - (x1 : ℚ)) * ((y2 : ℚ) - (y1 : ℚ)) / 45)
      = ((v : ℚ) * 45 - ((y1 : ℚ) * 45 + ((angle : ℚ) - (x1 : ℚ)) * ((y2 : ℚ) - (y1 : ℚ)))) / 45 := by
    ring
  rw [key]
  constructor
  · rw [le_div_iff₀ (by norm_num : (0 : ℚ) < 45)]
    linarith
  · rw [div_le_iff₀ (by norm_num : (0 : ℚ) < 45)]
    linarith

/-- C8: within each calibration segment, `interpolate` differs from the
ideal real-valued (rational) linear interpolation by at most 1. -/
theorem interpolate_near_ideal :
    ∀ i : Nat, i < 4 → ∀ angle : Int,
      (calibrationPoints.getD i (0, 0)).1 ≤ angle →
      angle ≤ (calibrationPoints.getD (i + 1) (0, 0)).1 →
      |(interpolate angle : ℚ) - idealQ i angle| ≤ 1 := by
  intro i hi angle h1 h2
  rw [abs_le]
  interval_cases i
  · rw [show (calibrationPoints.getD 0 (0, 0)).1 = 0 from rfl] at h1
    rw [show (calibrationPoints.getD 1 (0, 0)).1 = 45 from rfl] at h2
    have hg := interpolate_err_grid0 (angle - 0).toNat (by omega)
    have e : (0 : Int) + (((angle - 0).toNat : Nat) : Int) = angle := by omega
    rw [e] at hg
    have e2 : (((angle - 0).toNat : Nat) : Int) = angle - 0 := by omega
    rw [e2] at hg
    rw [show idealQ 0 angle =
      ((0 : Int) : ℚ) + ((angle : ℚ) - ((0 : Int) : ℚ)) * (((30 : Int) : ℚ) - ((0 : Int) : ℚ)) /
        (((45 : Int) : ℚ) - ((0 : Int) : ℚ)) from rfl]
    exact seg_err_bound 0 45 0 30 (interpolate angle) angle (by decide) hg.1 hg.2
  · rw [show (calibrationPoints.getD 1 (0, 0)).1 = 45 from rfl] at h1
    rw [show (calibrationPoints.getD 2 (0, 0)).1 = 90 from rfl] at h2
    have hg := interpolate_err_grid1 (angle - 45).toNat (by omega)
    have e : (45 : Int) + (((angle - 45).toNat : Nat) : Int) = angle := by omega
    rw [e] at hg
    have e2 : (((angle - 45).toNat : Nat) : Int) = angle - 45 := by omega
    rw [e2] at hg
    rw [show idealQ 1 angle =
      ((30 : Int) : ℚ) + ((angle : ℚ) - ((45 : Int) : ℚ)) * (((80 : Int) : ℚ) - ((30 : Int) : ℚ)) /
        (((90 : Int) : ℚ) - ((45 : Int) : ℚ)) from rfl]
    exact seg_err_bound 45 90 30 80 (interpolate angle) angle (by decide) hg.1 hg.2
  · rw [show (calibrationPoints.getD 2 (0, 0)).1 = 90 from rfl] at h1
    rw [show (calibrationPoints.getD 3 (0, 0)).1 = 135 from rfl] at h2
    have hg := interpolate_err_grid2 (angle - 90).toNat (by omega)
    have e : (90 : Int) + (((angle - 90).toNat : Nat) : Int) = angle := by omega
    rw [e] at hg
    have e2 : (((angle - 90).toNat : Nat) : Int) = angle - 90 := by omega
    rw [e2] at hg
    rw [show idealQ 2 angle =
      ((80 : Int) : ℚ) + ((angle : ℚ) - ((90 : Int) : ℚ)) * (((120 : Int) : ℚ) - ((80 : Int) : ℚ)) /
        (((135 : Int) : ℚ) - ((90 : Int) : ℚ)) from rfl]
    exact seg_err_bound 90 135 80 120 (interpolate angle) angle (by decide) hg.1 hg.2
  · rw [show (calibrationPoints.getD 3 (0, 0)).1 = 135 from rfl] at h1
    rw [show (calibrationPoints.getD 4 (0, 0)).1 = 180 from rfl] at h2
    have hg := interpolate_err_grid3 (angle - 135).toNat (by omega)
    have e : (135 : Int) + (((angle - 135).toNat : Nat) : Int) = angle := by omega
    rw [e] at hg
    have e2 : (((angle - 135).toNat : Nat) : Int) = angle - 135 := by omega
    rw [e2] at hg
    rw [show idealQ 3 angle =
      ((120 : Int) : ℚ) + ((angle : ℚ) - ((135 : Int) : ℚ)) * (((168 : Int) : ℚ) - ((120 : Int) : ℚ)) /
        (((180 : Int) : ℚ) - ((135 : Int) : ℚ)) from rfl]
    exact seg_err_bound 135 180 120 168 (interpolate angle) angle (by decide) hg.1 hg.2

/-- Witness for C8 at segment 1, angle 60: the computed value 46 is within
1 of the ideal 140/3. -/
theorem interpolate_near_ideal_witness :
    |(interpolate 60 : ℚ) - idealQ 1 60| ≤ 1 :=
  interpolate_near_ideal 1 (by decide) 60 (by decide) (by decide)

/-- The segment-search loop with every table access bounds-checked: an
access outside the five-entry table yields `none` instead of a value. -/
def interpolateLoopChecked (angle : Int) (i : Nat) : Nat → Option Int
  | 0 => some angle
  | rest + 1 =>
    match calibrationPoints[i]?, calibrationPoints[i + 1]? with
    | some p1, some p2 =>
      if p1.1 ≤ angle ∧ angle ≤ p2.1 then
        some (p1.2 + Int.tdiv ((angle - p1.1) * (p2.2 - p1.2)) (p2.1 - p1.1))
      else
        interpolateLoopChecked angle (i + 1) rest
    | _, _ => none

/-- `interpolate` with bounds-checked table accesses. -/
def interpolateChecked (angle : Int) : Option Int :=
  interpolateLoopChecked angle 0 4

/-- Unfolding the first checked pass. -/
theorem interpolateLoopChecked_unfold0 (angle : Int) :
    interpolateLoopChecked angle 0 4 =
      if (0 : Int) ≤ angle ∧ angle ≤ 45 then
        some (0 + Int.tdiv ((angle - 0) * (30 - 0)) (45 - 0))
      else interpolateLoopChecked angle 1 3 := rfl

/-- Unfolding the second checked pass. -/
theorem interpolateLoopChecked_unfold1 (angle : Int) :
    interpolateLoopChecked angle 1 3 =
      if (45 : Int) ≤ angle ∧ angle ≤ 90 then
        some (30 + Int.tdiv ((angle - 45) * (80 - 30)) (90 - 45))
      else interpolateLoopChecked angle 2 2 := rfl

/-- Unfolding the third checked pass. -/
theorem interpolateLoopChecked_unfold2 (angle : Int) :
    interpolateLoopChecked angle 2 2 =
      if (90 : Int) ≤ angle ∧ angle ≤ 135 then
        some (80 + Int.tdiv ((angle - 90) * (120 - 80)) (135 - 90))
      else interpolateLoopChecked angle 3 1 := rfl

/-- Unfolding the fourth checked pass. -/
theorem interpolateLoopChecked_unfold3 (angle : Int) :
    interpolateLoopChecked angle 3 1 =
      if (135 : Int) ≤ angle ∧ angle ≤ 180 then
        some (120 + Int.tdiv ((angle - 135) * (168 - 120)) (180 - 135))
      else interpolateLoopChecked angle 4 0 := rfl

/-- After the fourth checked pass the loop exhausts without any access. -/
theorem interpolateLoopChecked_unfold4 (angle : Int) :
    interpolateLoopChecked angle 4 0 = some angle := rfl

/-- C10: the segment search is total and in-bounds on every integer input:
the bounds-checked run never hits an out-of-range table index and returns
exactly `interpolate angle`. -/
theorem interpolate_total_in_bounds :
    ∀ angle : Int, interpolateChecked angle = some (interpolate angle) := by
  intro angle
  rw [interpolateChecked, interpolate,
    interpolateLoopChecked_unfold0, interpolateLoopChecked_unfold1,
    interpolateLoopChecked_unfold2, interpolateLoopChecked_unfold3,
    interpolateLoopChecked_unfold4,
    interpolateLoop_unfold0, interpolateLoop_unfold1,
    interpolateLoop_unfold2, interpolateLoop_unfold3, interpolateLoop_unfold4]
  split_ifs <;> rfl

